import Mathlib

/-!
Verification of the hover-ddns DDNS client against its specification.

The Go sources are shallowly embedded: byte slices of type net.IP become
lists of naturals, every HTTP interaction becomes an explicit input value
describing the response the server would give, and each function that
performs network calls additionally returns the ordered list of calls it
issued.  Runtime panics (out-of-bounds indexing, nil dereference) are
modelled as a `none` result of an `Option` wrapper.
-/

namespace HoverDdns

/-! ## Go net.IP model

A Go net.IP is a byte slice of length 4 or 16 (other lengths are possible
values but invalid addresses).  We model bytes as naturals below 256; none
of the embedded code depends on the bound.
-/

/-- A Go net.IP value: the underlying byte slice. -/
abbrev GoIP := List Nat

/-- The twelve leading bytes of an IPv4-in-IPv6 mapped address
(Go v4InV6Prefix from net/ip.go). -/
def v4InV6Head : List Nat := [0, 0, 0, 0, 0, 0, 0, 0, 0, 0, 255, 255]

/-- Go net.IP.To4: a 4-byte slice is returned as is; a 16-byte slice that
carries the IPv4-mapped marker yields its last four bytes; anything else
is nil (modelled as none). -/
def To4 (ip : GoIP) : Option GoIP :=
  if List.length ip = 4 then some ip
  else if List.length ip = 16 && List.take 12 ip == v4InV6Head then some (List.drop 12 ip)
  else none

/-- Go net.IP.To16: a 4-byte slice is widened with the IPv4-mapped marker;
a 16-byte slice is returned as is; anything else is nil (none).  Note that
a plain 4-octet address therefore succeeds. -/
def To16 (ip : GoIP) : Option GoIP :=
  if List.length ip = 4 then some (v4InV6Head ++ ip)
  else if List.length ip = 16 then some ip
  else none

/-- Go net.IP.Equal: byte equality after normalising a 4-byte form against
a 16-byte IPv4-mapped form. -/
def ipEqual (ip x : GoIP) : Bool :=
  if List.length ip = List.length x then ip == x
  else if List.length ip = 4 && List.length x = 16 then
    List.take 12 x == v4InV6Head && ip == List.drop 12 x
  else if List.length ip = 16 && List.length x = 4 then
    List.take 12 ip == v4InV6Head && List.drop 12 ip == x
  else false

/-! ### Go net.IP.String -/

/-- Lowercase hex rendering of one 16-bit group, minimal width
(Go appendHex). -/
def hexGroup (n : Nat) : String :=
  List.asString (Nat.toDigits 16 n)

/-- Two-digit lowercase hex rendering of one byte (Go hexString renders
every byte this way). -/
def byteHex (n : Nat) : String :=
  String.append (String.singleton (Nat.digitChar (n / 16 % 16)))
    (String.singleton (Nat.digitChar (n % 16)))

/-- Hex dump of a byte slice with no separators (Go hexString). -/
def hexBytes (l : List Nat) : String :=
  String.join (List.map byteHex l)

/-- Dotted-quad rendering of four bytes. -/
def dottedQuad : List Nat → String
  | [a, b, c, d] =>
      toString a ++ "." ++ toString b ++ "." ++ toString c ++ "." ++ toString d
  | _ => ""

/-- Combine a 16-byte slice into eight 16-bit groups. -/
def toGroups : List Nat → List Nat
  | a :: b :: t => (a * 256 + b) :: toGroups t
  | _ => []

/-- Length of the run of zero groups at the head of the list. -/
def zeroRunLen : List Nat → Nat
  | 0 :: t => 1 + zeroRunLen t
  | _ => 0

/-- Leftmost longest run of zero groups, as (start index, length).
Mirrors the e0/e1 search in Go net.IP.String; ties keep the leftmost run
because Go only replaces the candidate on a strictly longer run. -/
def bestZeroRun : List Nat → Nat → Nat × Nat
  | [], idx => (idx, 0)
  | g :: t, idx =>
      let here := zeroRunLen (g :: t)
      let rest := bestZeroRun t (idx + 1)
      if here ≥ rest.2 then (idx, here) else rest

/-- Go net.IP.String: empty slice renders as nil, 4-byte forms (and
IPv4-mapped 16-byte forms, via To4) render dotted, other non-16-byte
slices render as a hex dump with a leading question mark, and 16-byte
forms render as colon-separated hex groups with the leftmost longest run
of two or more zero groups elided. -/
def goIPString (ip : GoIP) : String :=
  if List.length ip = 0 then "<nil>"
  else
    match To4 ip with
    | some q => dottedQuad q
    | none =>
      if List.length ip ≠ 16 then "?" ++ hexBytes ip
      else
        let gs := toGroups ip
        let run := bestZeroRun gs 0
        if run.2 ≥ 2 then
          String.intercalate ":" (List.map hexGroup (List.take run.1 gs))
            ++ "::"
            ++ String.intercalate ":" (List.map hexGroup (List.drop (run.1 + run.2) gs))
        else String.intercalate ":" (List.map hexGroup gs)

/-! ### Go strings.TrimSpace

Go trims Unicode white space; the embedding covers the ASCII space
characters plus NEL and NBSP, which includes every byte a plain-text IP
endpoint can produce around an address.
-/

/-- White space predicate used by the TrimSpace model. -/
def goIsSpace (c : Char) : Bool :=
  c = ' ' || c = '\t' || c = '\n' || c = '\x0b' || c = '\x0c' || c = '\r'
    || c.toNat = 133 || c.toNat = 160

/-- Go strings.TrimSpace: drop white space from both ends. -/
def trimSpace (s : String) : String :=
  String.mk (List.reverse (List.dropWhile goIsSpace
    (List.reverse (List.dropWhile goIsSpace s.data))))

/-! ### Go net.ParseIP

Modern net.ParseIP delegates to netip.ParseAddr and rejects zoned
addresses; the result is always the 16-byte form.  The field parsers below
follow netip parseIPv4Fields / parseIPv6.
-/

/-- Decimal dotted-quad field parser (netip parseIPv4Fields): exactly four
fields, each one to three digits with no leading zero, value at most 255.
Arguments: remaining characters, current field value, digits seen in the
current field, completed fields. -/
def pv4 : List Char → Nat → Nat → List Nat → Option (List Nat)
  | [], val, digLen, fields =>
      if digLen = 0 then none
      else if List.length fields = 3 then some (fields ++ [val])
      else none
  | c :: cs, val, digLen, fields =>
      if c.isDigit then
        if digLen = 1 && val = 0 then none
        else
          let v := val * 10 + (c.toNat - 48)
          if v > 255 then none else pv4 cs v (digLen + 1) fields
      else if c = '.' then
        if digLen = 0 then none
        else if cs = [] then none
        else if List.length fields = 3 then none
        else pv4 cs 0 0 (fields ++ [val])
      else none

/-- Hex digit test for the IPv6 field scanner. -/
def isHexDigitC (c : Char) : Bool :=
  c.isDigit || ('a' ≤ c && c ≤ 'f') || ('A' ≤ c && c ≤ 'F')

/-- Value of a hex digit. -/
def hexVal (c : Char) : Nat :=
  if c.isDigit then c.toNat - 48
  else if 'a' ≤ c then c.toNat - 97 + 10
  else c.toNat - 65 + 10

/-- Scan a run of hex digits, accumulating the value Go-style: the
accumulator must never exceed 0xFFFF.  Returns the value, the number of
digits consumed and the rest of the input; none when the value overflows. -/
def hexRun : List Char → Nat → Nat → Option (Nat × Nat × List Char)
  | [], acc, n => some (acc, n, [])
  | c :: cs, acc, n =>
      if isHexDigitC c then
        let a := acc * 16 + hexVal c
        if a > 65535 then none else hexRun cs a (n + 1)
      else some (acc, n, c :: cs)

/-- Post-loop fixups of netip parseIPv6: trailing input is an error; a
short address needs an ellipsis, which expands to the missing zero bytes;
a full-length address must not carry an ellipsis. -/
def p6finish (s : List Char) (ip : List Nat) (ellipsis : Option Nat) : Option GoIP :=
  if s ≠ [] then none
  else if List.length ip < 16 then
    match ellipsis with
    | none => none
    | some e =>
        some (List.take e ip ++ List.replicate (16 - List.length ip) 0 ++ List.drop e ip)
  else
    match ellipsis with
    | some _ => none
    | none => some ip

/-- Main loop of netip parseIPv6 over the remaining characters; the fuel
argument only bounds the recursion and exceeds the number of iterations
whenever it is at least the input length plus one, since every iteration
consumes at least one character. -/
def p6loop : Nat → List Char → List Nat → Option Nat → Option GoIP
  | 0, _, _, _ => none
  | fuel + 1, s, ip, ellipsis =>
      if List.length ip ≥ 16 then p6finish s ip ellipsis
      else
        match hexRun s 0 0 with
        | none => none
        | some (acc, n, rest) =>
          if n = 0 then none
          else if List.head? rest = some '.' then
            if ellipsis = none && List.length ip ≠ 12 then none
            else if List.length ip + 4 > 16 then none
            else
              match pv4 s 0 0 [] with
              | none => none
              | some f4 => p6finish [] (ip ++ f4) ellipsis
          else
            let ip2 := ip ++ [acc / 256, acc % 256]
            match rest with
            | [] => p6finish [] ip2 ellipsis
            | [':'] => none
            | ':' :: ':' :: rest2 =>
              (match ellipsis with
               | some _ => none
               | none =>
                 if rest2 = [] then p6finish [] ip2 (some (List.length ip2))
                 else p6loop fuel rest2 ip2 (some (List.length ip2)))
            | ':' :: rest2 => p6loop fuel rest2 ip2 ellipsis
            | _ => none

/-- netip parseIPv6 over a character list.  A zone marker is rejected
because net.ParseIP refuses zoned addresses.  A leading double colon is
peeled off before the main loop, matching the Go code. -/
def parseIPv6Chars (cs : List Char) : Option GoIP :=
  if List.contains cs '%' then none
  else
    match cs with
    | ':' :: ':' :: rest =>
      if rest = [] then some (List.replicate 16 0)
      else p6loop (List.length rest + 1) rest [] (some 0)
    | _ => p6loop (List.length cs + 1) cs [] none

/-- Dispatch of net.ParseIP: scan for the first dot, colon or percent sign
and hand the whole string to the appropriate family parser; a percent
sign (zone) and an address with neither marker fail.  A parsed IPv4
address is widened to the 16-byte mapped form exactly as net.ParseIP
returns it. -/
def dispatchIP (orig : List Char) : List Char → Option GoIP
  | [] => none
  | c :: cs =>
      if c = '.' then Option.map (fun f => v4InV6Head ++ f) (pv4 orig 0 0 [])
      else if c = ':' then parseIPv6Chars orig
      else if c = '%' then none
      else dispatchIP orig cs

/-- Go net.ParseIP. -/
def goParseIP (s : String) : Option GoIP :=
  dispatchIP s.data s.data

/-! ## Public-IP providers: body handling after a 200 response

Each text-endpoint provider reads the response body and parses it.  The
functions below embed exactly the tail of the Go functions, from the body
bytes onward; retries and status handling happen before this point and
are not needed by any claim about a successful response.
-/

/-- publicip/ipify.go GetPublicIP, from ipBytes onward: the body string is
passed to net.ParseIP with no trimming. -/
def ipifyParseBody (body : String) : Except String GoIP :=
  match goParseIP body with
  | none => Except.error ("\x27" ++ body ++ "\x27 is not a valid IP address.")
  | some ip => Except.ok ip

/-- publicip/amazon.go getAddress, from ipBytes onward: the body string is
trimmed with strings.TrimSpace before net.ParseIP. -/
def amazonGetAddressBody (body : String) : Except String GoIP :=
  let ipString := trimSpace body
  match goParseIP ipString with
  | none => Except.error ("\x27" ++ ipString ++ "\x27 is not a valid IP address.")
  | some ip => Except.ok ip

/-- publicip/icanhazip.go getAddress, from ipBytes onward: identical to the
amazon provider, the body is trimmed before parsing. -/
def icanhazipGetAddressBody (body : String) : Except String GoIP :=
  let ipString := trimSpace body
  match goParseIP ipString with
  | none => Except.error ("\x27" ++ ipString ++ "\x27 is not a valid IP address.")
  | some ip => Except.ok ip

/-! ## Hover client (hover/hover.go)

JSON envelopes as unmarshalled by the Go code.  The JSON field of Record
named type is called Typ here because Type is reserved in Lean.
-/

/-- One entry of the domain-list envelope. -/
structure Domain where
  ID : String
  DomainName : String
  deriving DecidableEq, Repr

/-- Response envelope of the domain-list endpoint. -/
structure DomainEnvelope where
  Succeeded : Bool
  Domains : List Domain
  deriving DecidableEq, Repr

/-- One DNS entry of the record-list envelope. -/
structure Record where
  ID : String
  Name : String
  Typ : String
  Content : String
  deriving DecidableEq, Repr

/-- One domain of the record-list envelope; the records sit in a JSON
field named entries. -/
structure RecordDomain where
  Records : List Record
  deriving DecidableEq, Repr

/-- Response envelope of the record-list endpoint: the entries are nested
under a field named for domains. -/
structure RecordEnvelope where
  Succeeded : Bool
  Domains : List RecordDomain
  deriving DecidableEq, Repr

/-- An HTTP cookie (name and value are all the embedded code reads). -/
structure Cookie where
  name : String
  value : String
  deriving DecidableEq, Repr

/-- The session state of HoverClient: the two cookie pointers. -/
structure HoverClient where
  sessionCookie : Option Cookie
  authCookie : Option Cookie
  deriving DecidableEq, Repr

/-- HoverClient.IsAuthenticated: false for a nil receiver (modelled as
none) or when either cookie pointer is nil. -/
def IsAuthenticated : Option HoverClient → Bool
  | none => false
  | some c => !(c.sessionCookie.isNone || c.authCookie.isNone)

/-- Outcome of one httpClient.Do call whose body is not parsed: either a
transport error or a response carrying a status code. -/
inductive DoOutcome where
  | failed (msg : String)
  | ok (status : Nat)
  deriving DecidableEq, Repr

deriving instance DecidableEq for Except

/-- Outcome of an httpClient.Do call plus body parse for an envelope of
type a: transport error, or a response with a status code and the
json.Unmarshal outcome of its body. -/
inductive HttpResp (a : Type) where
  | transportError (msg : String)
  | response (status : Nat) (body : Except String a)
  deriving DecidableEq, Repr

/-- Response to the record-list GET.  The Go getRecordID dereferences the
response before checking the transport error, so only the
transport-success case is reachable without a panic and only it is
modelled: a status code plus the body parse outcome. -/
structure RecordsResp where
  status : Nat
  body : Except String RecordEnvelope
  deriving DecidableEq, Repr

/-- One network call issued by the client, with the arguments that shape
the request. -/
inductive Call where
  | getDomains
  | getRecords (domainID hostName recordType : String)
  | deleteRec (recordID : String)
  | createRec (domainID hostName content recordType : String) (ttl : Nat)
  deriving DecidableEq, Repr

/-- The record-scan loop of getRecordID: the accumulator is overwritten on
every entry whose name and type both match, so a later match wins. -/
def recMatches (hostName recordType : String) (r : Record) : Bool :=
  r.Name == hostName && r.Typ == recordType

/-- Fold embedding of the for-loop over the records of the single returned
domain. -/
def recScan (hostName recordType : String) (init : String) (l : List Record) : String :=
  List.foldl (fun recordID r => if recMatches hostName recordType r then r.ID else recordID)
    init l

/-- The domain-scan loop of getDomainID: last exact name match wins. -/
def domScan (domainName : String) (l : List Domain) : String :=
  List.foldl (fun domainID d => if d.DomainName == domainName then d.ID else domainID) "" l

/-- hover.go getDomainID after the request is issued: transport error and
non-200 status are errors, an unparsable body is an error, a failed
envelope is an error, and an empty scan result means the domain was not
found. -/
def getDomainID (r : HttpResp DomainEnvelope) (domainName : String) : Except String String :=
  match r with
  | HttpResp.transportError m => Except.error m
  | HttpResp.response st body =>
    if st ≠ 200 then Except.error ("Received status code " ++ toString st)
    else
      match body with
      | Except.error e => Except.error e
      | Except.ok result =>
        if !result.Succeeded then Except.error "Domain request failed"
        else
          let domainID := domScan domainName result.Domains
          if domainID = "" then
            Except.error ("Could not find domain \x27" ++ domainName ++ "\x27 in list of domains")
          else Except.ok domainID

/-- hover.go getRecordID after the request is issued: non-200 status is an
error, an unparsable body is an error, a failed envelope or a domain list
whose length is not one is an error, and otherwise the scan result is
returned (the empty string when nothing matched, with no error). -/
def getRecordID (resp : RecordsResp) (hostName recordType : String) : Except String String :=
  if resp.status ≠ 200 then Except.error ("Received status code " ++ toString resp.status)
  else
    match resp.body with
    | Except.error e => Except.error e
    | Except.ok recordsResult =>
      if !recordsResult.Succeeded then Except.error "records request failed"
      else
        match recordsResult.Domains with
        | [d] => Except.ok (recScan hostName recordType "" d.Records)
        | _ => Except.error "records request failed"

/-- hover.go deleteRecord after the request is issued: a transport error is
returned as is, a non-200 status is an error, otherwise success. -/
def deleteRecord (r : DoOutcome) : Except String Unit :=
  match r with
  | DoOutcome.failed m => Except.error m
  | DoOutcome.ok st =>
    if st ≠ 200 then Except.error ("Received status code " ++ toString st)
    else Except.ok ()

/-- hover.go createRecord after the request is issued (json.Marshal of the
fixed CreateRecord struct cannot fail): a transport error is returned as
is, a non-200 status is an error, otherwise success. -/
def createRecord (r : DoOutcome) : Except String Unit :=
  match r with
  | DoOutcome.failed m => Except.error m
  | DoOutcome.ok st =>
    if st ≠ 200 then Except.error ("Received status code " ++ toString st)
    else Except.ok ()

/-- The record TTL constant of hover.go. -/
def RecordTTL : Nat := 3600

/-- The responses the server gives to the calls one family update can
issue: the record-list GET, the DELETE and the POST. -/
structure FamilyEnv where
  records : RecordsResp
  deleteOutcome : DoOutcome
  createOutcome : DoOutcome
  deriving DecidableEq, Repr

/-- hover.go updateSingleRecord: look up the record ID; on a lookup error
return it.  When an ID was found, issue the DELETE first and abort with
its error if it fails; only then (or directly, when no record exists)
issue the create POST and return its outcome.  The first component lists
the network calls in order. -/
def updateSingleRecord (env : FamilyEnv) (domainID hostName ip recordType : String) :
    List Call × Except String Unit :=
  match getRecordID env.records hostName recordType with
  | Except.error e => ([Call.getRecords domainID hostName recordType], Except.error e)
  | Except.ok recordID =>
    if !(recordID == "") then
      match deleteRecord env.deleteOutcome with
      | Except.error e =>
          ([Call.getRecords domainID hostName recordType, Call.deleteRec recordID],
           Except.error e)
      | Except.ok _ =>
          ([Call.getRecords domainID hostName recordType, Call.deleteRec recordID,
            Call.createRec domainID hostName ip recordType RecordTTL],
           createRecord env.createOutcome)
    else
      ([Call.getRecords domainID hostName recordType,
        Call.createRec domainID hostName ip recordType RecordTTL],
       createRecord env.createOutcome)

/-- The responses the server gives during one Update call: the domain-list
GET plus one family environment per address family, consumed in that
order when the corresponding family is processed. -/
structure UpdateEnv where
  domains : HttpResp DomainEnvelope
  famA : FamilyEnv
  famAAAA : FamilyEnv
  deriving DecidableEq, Repr

/-- hover.go HoverClient.Update: an unauthenticated client is an error
before any call; a domain-ID failure is returned after the domain-list
GET.  Each provided address is validated with To4 (IPv4) or To16 (IPv6);
an address failing validation is only logged and its family skipped.  A
family update error is logged and dropped, and the function returns nil
once both families were considered. -/
def Update (c : Option HoverClient) (env : UpdateEnv) (domainName hostName : String)
    (ip4 ip6 : Option GoIP) : List Call × Except String Unit :=
  if !IsAuthenticated c then ([], Except.error "no auth session was provided")
  else
    match getDomainID env.domains domainName with
    | Except.error e => ([Call.getDomains], Except.error e)
    | Except.ok domainID =>
      let t4 : List Call :=
        match ip4 with
        | none => []
        | some b =>
          match To4 b with
          | none => []
          | some _ =>
              (updateSingleRecord env.famA domainID hostName (goIPString b) "A").1
      let t6 : List Call :=
        match ip6 with
        | none => []
        | some b =>
          match To16 b with
          | none => []
          | some _ =>
              (updateSingleRecord env.famAAAA domainID hostName (goIPString b) "AAAA").1
      (Call.getDomains :: (t4 ++ t6), Except.ok ())

/-! ## Main flow (hover-ddns.go)

The run from the point where the desired public IP is known.  The DNS
lookup of the current value is an input (the outcome net.LookupIP would
produce), and the single call into hover.Update is abstracted by its
result plus a flag recording whether it was invoked at all: every
authentication and every mutating HTTP call of a run happens inside it.
-/

/-- hover-ddns.go resolveCurrentIP: a lookup error is returned; otherwise
the first address of the answer list is returned with no emptiness check,
so an empty successful answer makes the ips[0] access panic, modelled as
none. -/
def resolveCurrentIP (lookup : Except String (List GoIP)) : Option (Except String GoIP) :=
  match lookup with
  | Except.error e => some (Except.error e)
  | Except.ok ips =>
    match ips with
    | [] => none
    | x :: _ => some (Except.ok x)

/-- Exit code of the run and whether hover.Update was invoked. -/
structure MainOutcome where
  exitCode : Nat
  hoverUpdateCalled : Bool
  deriving DecidableEq, Repr

/-- hover-ddns.go main from the current-IP resolution onward: a lookup
error exits with code 1; equal addresses without force-update exit 0
before any hover call; otherwise, unless dry-run is set, hover.Update runs
and its error exits with code 1.  A none result models the panic inside
resolveCurrentIP. -/
def mainAfterPublicIP (ip : GoIP) (lookup : Except String (List GoIP))
    (forceUpdate dryRun : Bool) (hoverUpdate : Except String Unit) : Option MainOutcome :=
  match resolveCurrentIP lookup with
  | none => none
  | some (Except.error _) => some ⟨1, false⟩
  | some (Except.ok currentIP) =>
    if ipEqual currentIP ip && !forceUpdate then some ⟨0, false⟩
    else if !dryRun then
      match hoverUpdate with
      | Except.error _ => some ⟨1, true⟩
      | Except.ok _ => some ⟨0, true⟩
    else some ⟨0, false⟩

/-! ## Scan lemmas -/

/-- A record scan over entries none of which match leaves the accumulator
unchanged. -/
theorem recScan_no_match (hostName recordType : String) (l : List Record) (init : String)
    (hl : ∀ r ∈ l, recMatches hostName recordType r = false) :
    recScan hostName recordType init l = init := by
  induction l generalizing init with
  | nil => rfl
  | cons a tl ih =>
    have ha := hl a (List.mem_cons_self a tl)
    have htl : ∀ r ∈ tl, recMatches hostName recordType r = false :=
      fun r hr => hl r (List.mem_cons_of_mem a hr)
    simp only [recScan, List.foldl_cons, ha, if_neg (by simp [ha] : ¬recMatches hostName recordType a = true)]
    exact ih init htl

/-- The record scan splits along an append. -/
theorem recScan_append (hostName recordType init : String) (l₁ l₂ : List Record) :
    recScan hostName recordType init (l₁ ++ l₂)
      = recScan hostName recordType (recScan hostName recordType init l₁) l₂ := by
  simp [recScan, List.foldl_append]

/-! ## Claim C1 -/

/-- C1 counterexample: the claim says a failed authoritative lookup is
treated as unknown and the update is still attempted.  On a concrete run
whose lookup fails, main logs the error and exits with code 1 without
invoking hover.Update at all: the run aborts instead of proceeding. -/
theorem C1_counterexample :
    mainAfterPublicIP [203, 0, 113, 5] (Except.error "lookup failed") false false
        (Except.ok ())
      = some ⟨1, false⟩ := rfl

/-- C1 (amended): for every run in which the lookup of the current
published value fails, main exits with code 1 and hover.Update is never
invoked; the failure aborts the run rather than being treated as an
unknown current value that forces an update. -/
theorem C1_amended_lookup_failure_aborts (ip : GoIP) (e : String)
    (forceUpdate dryRun : Bool) (hoverUpdate : Except String Unit) :
    mainAfterPublicIP ip (Except.error e) forceUpdate dryRun hoverUpdate = some ⟨1, false⟩ :=
  rfl

/-! ## Claim C2 -/

/-- C2 counterexample: the claim says every lookup outcome, including a
successful lookup with an empty answer list, yields an error value and no
out-of-bounds access.  On the empty successful answer the code indexes
ips[0] without a bounds check, modelled as the none (panic) result. -/
theorem C2_counterexample : resolveCurrentIP (Except.ok []) = none := rfl

/-- C2 (amended): a failed lookup makes resolveCurrentIP return that error
and a successful lookup with at least one address returns the first
address; only a successful lookup with an empty answer list, which the Go
resolver never produces, is unguarded and would index out of bounds. -/
theorem C2_amended_resolveCurrentIP :
    (∀ e, resolveCurrentIP (Except.error e) = some (Except.error e)) ∧
    (∀ x xs, resolveCurrentIP (Except.ok (x :: xs)) = some (Except.ok x)) :=
  ⟨fun _ => rfl, fun _ _ => rfl⟩

/-! ## Claim C3 -/

/-- C3: on a well-formed record-list response in which no entry matches the
requested name and type, getRecordID returns the empty-string sentinel
with no error, and updateSingleRecord under that response issues exactly
the record-list GET followed by the create POST: no delete call. -/
theorem C3_absent_record_create_only (d : RecordDomain) (del cre : DoOutcome)
    (domainID hostName ip recordType : String)
    (hnone : ∀ r ∈ d.Records, recMatches hostName recordType r = false) :
    getRecordID ⟨200, Except.ok ⟨true, [d]⟩⟩ hostName recordType = Except.ok "" ∧
    (updateSingleRecord ⟨⟨200, Except.ok ⟨true, [d]⟩⟩, del, cre⟩
        domainID hostName ip recordType).1
      = [Call.getRecords domainID hostName recordType,
         Call.createRec domainID hostName ip recordType RecordTTL] := by
  have hscan : recScan hostName recordType "" d.Records = "" :=
    recScan_no_match hostName recordType d.Records "" hnone
  refine ⟨?_, ?_⟩
  · simp [getRecordID, hscan]
  · simp [updateSingleRecord, getRecordID, hscan]

/-- C3 witness: a concrete response with no entries at all. -/
theorem C3_witness :
    getRecordID ⟨200, Except.ok ⟨true, [⟨[]⟩]⟩⟩ "www" "A" = Except.ok "" ∧
    (updateSingleRecord ⟨⟨200, Except.ok ⟨true, [⟨[]⟩]⟩⟩, DoOutcome.ok 200, DoOutcome.ok 200⟩
        "dom123" "www" "203.0.113.9" "A").1
      = [Call.getRecords "dom123" "www" "A",
         Call.createRec "dom123" "www" "203.0.113.9" "A" RecordTTL] :=
  C3_absent_record_create_only ⟨[]⟩ (DoOutcome.ok 200) (DoOutcome.ok 200)
    "dom123" "www" "203.0.113.9" "A" (by simp)

/-! ## Claim C4 -/

/-- C4: when the record lookup returns a non-empty ID, updateSingleRecord
issues the DELETE before the POST, never the reverse: on delete success
the trace is lookup, delete, create in that order, and on delete failure
the create is never issued and the delete error is returned. -/
theorem C4_delete_before_create (env : FamilyEnv) (domainID hostName ip recordType rid : String)
    (hfound : getRecordID env.records hostName recordType = Except.ok rid)
    (hne : rid ≠ "") :
    (deleteRecord env.deleteOutcome = Except.ok () →
      (updateSingleRecord env domainID hostName ip recordType).1
        = [Call.getRecords domainID hostName recordType, Call.deleteRec rid,
           Call.createRec domainID hostName ip recordType RecordTTL]) ∧
    (∀ e, deleteRecord env.deleteOutcome = Except.error e →
      (updateSingleRecord env domainID hostName ip recordType).1
        = [Call.getRecords domainID hostName recordType, Call.deleteRec rid] ∧
      (updateSingleRecord env domainID hostName ip recordType).2 = Except.error e) := by
  have hbeq : (rid == "") = false := by
    simp only [beq_eq_false_iff_ne, ne_eq]
    exact hne
  refine ⟨?_, ?_⟩
  · intro hdel
    simp [updateSingleRecord, hfound, hbeq, hdel]
  · intro e hdel
    refine ⟨?_, ?_⟩ <;> simp [updateSingleRecord, hfound, hbeq, hdel]

/-- C4 witness: a concrete response holding the existing record r1 and a
successful delete. -/
theorem C4_witness :
    (updateSingleRecord
        ⟨⟨200, Except.ok ⟨true, [⟨[⟨"r1", "www", "A", "203.0.113.5"⟩]⟩]⟩⟩,
         DoOutcome.ok 200, DoOutcome.ok 200⟩ "dom123" "www" "203.0.113.9" "A").1
      = [Call.getRecords "dom123" "www" "A", Call.deleteRec "r1",
         Call.createRec "dom123" "www" "203.0.113.9" "A" RecordTTL] :=
  (C4_delete_before_create
      ⟨⟨200, Except.ok ⟨true, [⟨[⟨"r1", "www", "A", "203.0.113.5"⟩]⟩]⟩⟩,
       DoOutcome.ok 200, DoOutcome.ok 200⟩
      "dom123" "www" "203.0.113.9" "A" "r1" (by decide) (by decide)).1 (by decide)

/-! ## Claim C5 -/

/-- C5: on a well-formed record-list response whose entry list contains
more than one entry matching the requested name and type, getRecordID
returns the ID of the last matching entry in response order: the entry r
placed after every other match and followed only by non-matching
entries. -/
theorem C5_last_match_wins (l₁ l₂ : List Record) (r : Record) (hostName recordType : String)
    (hmulti : ∃ q ∈ l₁, recMatches hostName recordType q = true)
    (hr : recMatches hostName recordType r = true)
    (hafter : ∀ q ∈ l₂, recMatches hostName recordType q = false) :
    getRecordID ⟨200, Except.ok ⟨true, [⟨l₁ ++ r :: l₂⟩]⟩⟩ hostName recordType
      = Except.ok r.ID := by
  have hscan : recScan hostName recordType "" (l₁ ++ r :: l₂) = r.ID := by
    rw [recScan_append]
    have hcons : recScan hostName recordType (recScan hostName recordType "" l₁) (r :: l₂)
        = recScan hostName recordType r.ID l₂ := by
      simp [recScan, List.foldl_cons, hr]
    rw [hcons]
    exact recScan_no_match hostName recordType l₂ r.ID hafter
  simp [getRecordID, hscan]

/-- C5 witness: two matching entries r1 and r2; the later one, r2, wins. -/
theorem C5_witness :
    getRecordID
        ⟨200, Except.ok ⟨true,
          [⟨[⟨"r1", "www", "A", "203.0.113.5"⟩] ++ ⟨"r2", "www", "A", "203.0.113.6"⟩ :: []⟩]⟩⟩
        "www" "A"
      = Except.ok "r2" :=
  C5_last_match_wins [⟨"r1", "www", "A", "203.0.113.5"⟩] []
    ⟨"r2", "www", "A", "203.0.113.6"⟩ "www" "A"
    ⟨⟨"r1", "www", "A", "203.0.113.5"⟩, by simp, by decide⟩ (by decide) (by simp)

/-! ## Claim C6 -/

/-- C6 counterexample: the claim says every text-endpoint strategy trims
the body before parsing, so an address followed by a newline parses.  The
ipify strategy passes the raw body to net.ParseIP, so a trailing newline
yields a parse failure instead of the address. -/
theorem C6_counterexample :
    ipifyParseBody "1.2.3.4\n"
      = Except.error "\x271.2.3.4\n\x27 is not a valid IP address." := by
  decide

/-- C6 (amended): the amazon and icanhazip text-endpoint strategies trim
the body of surrounding whitespace before parsing, so any body whose
trimmed form parses yields that address; the ipify strategy does not trim,
so a valid address followed by a newline yields a parse failure there. -/
theorem C6_amended_trim_behavior :
    (∀ body ip, goParseIP (trimSpace body) = some ip →
      amazonGetAddressBody body = Except.ok ip ∧
      icanhazipGetAddressBody body = Except.ok ip) ∧
    ipifyParseBody "203.0.113.7\n"
      = Except.error "\x27203.0.113.7\n\x27 is not a valid IP address." := by
  refine ⟨?_, by decide⟩
  intro body ip h
  exact ⟨by simp [amazonGetAddressBody, h], by simp [icanhazipGetAddressBody, h]⟩

/-- C6 witness: the amazon strategy accepts a newline-terminated body. -/
theorem C6_witness :
    amazonGetAddressBody "203.0.113.7\n" = Except.ok (v4InV6Head ++ [203, 0, 113, 7]) :=
  (C6_amended_trim_behavior.1 "203.0.113.7\n" (v4InV6Head ++ [203, 0, 113, 7]) (by decide)).1

/-! ## Claim C7 -/

/-- C7 counterexample: the claim says a 4-octet value supplied as the IPv6
address is never sent to the AAAA endpoint.  Because net.IP.To16 maps a
4-octet address to its 16-byte form instead of rejecting it, a concrete
Update call with the 4-octet 203.0.113.9 as its IPv6 argument passes
validation and issues the AAAA record lookup and create. -/
theorem C7_counterexample :
    Update (some ⟨some ⟨"hover_session", "s"⟩, some ⟨"hoverauth", "a"⟩⟩)
        ⟨HttpResp.response 200 (Except.ok ⟨true, [⟨"dom123", "example.com"⟩]⟩),
         ⟨⟨200, Except.ok ⟨true, [⟨[]⟩]⟩⟩, DoOutcome.ok 200, DoOutcome.ok 200⟩,
         ⟨⟨200, Except.ok ⟨true, [⟨[]⟩]⟩⟩, DoOutcome.ok 200, DoOutcome.ok 200⟩⟩
        "example.com" "www" none (some [203, 0, 113, 9])
      = ([Call.getDomains, Call.getRecords "dom123" "www" "AAAA",
          Call.createRec "dom123" "www" "203.0.113.9" "AAAA" RecordTTL], Except.ok ()) := by
  decide

/-- C7 (amended): an IPv4 argument that To4 rejects and an IPv6 argument
that To16 rejects are dropped locally: Update behaves exactly as if that
family had not been supplied, so no record lookup, delete or create is
issued for it.  To16 however accepts 4-octet values, so the IPv6 check
only rejects malformed slices, not IPv4 addresses. -/
theorem C7_amended_local_validation :
    (∀ c env domainName hostName b ip6, To4 b = none →
      Update c env domainName hostName (some b) ip6
        = Update c env domainName hostName none ip6) ∧
    (∀ c env domainName hostName ip4 b, To16 b = none →
      Update c env domainName hostName ip4 (some b)
        = Update c env domainName hostName ip4 none) := by
  refine ⟨?_, ?_⟩
  · intro c env domainName hostName b ip6 h
    simp [Update, h]
  · intro c env domainName hostName ip4 b h
    simp [Update, h]

/-- C7 witness: a 3-byte slice fails To4 and its Update run equals the run
with no IPv4 argument. -/
theorem C7_witness :
    Update (some ⟨some ⟨"hover_session", "s"⟩, some ⟨"hoverauth", "a"⟩⟩)
        ⟨HttpResp.response 200 (Except.ok ⟨true, [⟨"dom123", "example.com"⟩]⟩),
         ⟨⟨200, Except.ok ⟨true, [⟨[]⟩]⟩⟩, DoOutcome.ok 200, DoOutcome.ok 200⟩,
         ⟨⟨200, Except.ok ⟨true, [⟨[]⟩]⟩⟩, DoOutcome.ok 200, DoOutcome.ok 200⟩⟩
        "example.com" "www" (some [1, 2, 3]) none
      = Update (some ⟨some ⟨"hover_session", "s"⟩, some ⟨"hoverauth", "a"⟩⟩)
          ⟨HttpResp.response 200 (Except.ok ⟨true, [⟨"dom123", "example.com"⟩]⟩),
           ⟨⟨200, Except.ok ⟨true, [⟨[]⟩]⟩⟩, DoOutcome.ok 200, DoOutcome.ok 200⟩,
           ⟨⟨200, Except.ok ⟨true, [⟨[]⟩]⟩⟩, DoOutcome.ok 200, DoOutcome.ok 200⟩⟩
          "example.com" "www" none none :=
  C7_amended_local_validation.1
    (some ⟨some ⟨"hover_session", "s"⟩, some ⟨"hoverauth", "a"⟩⟩)
    ⟨HttpResp.response 200 (Except.ok ⟨true, [⟨"dom123", "example.com"⟩]⟩),
     ⟨⟨200, Except.ok ⟨true, [⟨[]⟩]⟩⟩, DoOutcome.ok 200, DoOutcome.ok 200⟩,
     ⟨⟨200, Except.ok ⟨true, [⟨[]⟩]⟩⟩, DoOutcome.ok 200, DoOutcome.ok 200⟩⟩
    "example.com" "www" [1, 2, 3] none (by decide)

/-! ## Claim C8 -/

/-- C8: with force-update false and a current value equal (in the Go
net.IP.Equal sense) to the desired value, the run exits with code 0 before
hover.Update is ever invoked, so no authentication and no mutating HTTP
call happens; a repeat run under unchanged inputs is therefore
mutation-free. -/
theorem C8_skip_when_equal (ip currentIP : GoIP) (rest : List GoIP) (dryRun : Bool)
    (hoverUpdate : Except String Unit) (heq : ipEqual currentIP ip = true) :
    mainAfterPublicIP ip (Except.ok (currentIP :: rest)) false dryRun hoverUpdate
      = some ⟨0, false⟩ := by
  simp [mainAfterPublicIP, resolveCurrentIP, heq]

/-- C8 witness: equal concrete current and desired addresses. -/
theorem C8_witness :
    mainAfterPublicIP [203, 0, 113, 5] (Except.ok [[203, 0, 113, 5]]) false false
        (Except.ok ())
      = some ⟨0, false⟩ :=
  C8_skip_when_equal [203, 0, 113, 5] [203, 0, 113, 5] [] false (Except.ok ()) (by decide)

/-! ## Claim C9 -/

/-- C9: when both families are supplied and valid, a failure of the IPv4
family update (its result is an error) does not stop Update: the trace
still contains the full IPv6 family calls after the IPv4 ones, and Update
still returns nil. -/
theorem C9_ipv6_after_ipv4_failure (c : Option HoverClient) (env : UpdateEnv)
    (domainName hostName domainID : String) (b4 b6 p4 q6 : GoIP) (e : String)
    (hauth : IsAuthenticated c = true)
    (hdom : getDomainID env.domains domainName = Except.ok domainID)
    (h4 : To4 b4 = some p4)
    (h6 : To16 b6 = some q6)
    (hfail : (updateSingleRecord env.famA domainID hostName (goIPString b4) "A").2
      = Except.error e) :
    (Update c env domainName hostName (some b4) (some b6)).1
      = Call.getDomains ::
          ((updateSingleRecord env.famA domainID hostName (goIPString b4) "A").1
            ++ (updateSingleRecord env.famAAAA domainID hostName (goIPString b6) "AAAA").1) ∧
    (Update c env domainName hostName (some b4) (some b6)).2 = Except.ok () := by
  refine ⟨?_, ?_⟩ <;> simp [Update, hauth, hdom, h4, h6]

/-- C9 witness: the IPv4 record lookup answers 500 and fails, yet the AAAA
calls are still issued. -/
theorem C9_witness :
    (Update (some ⟨some ⟨"hover_session", "s"⟩, some ⟨"hoverauth", "a"⟩⟩)
        ⟨HttpResp.response 200 (Except.ok ⟨true, [⟨"dom123", "example.com"⟩]⟩),
         ⟨⟨500, Except.ok ⟨true, [⟨[]⟩]⟩⟩, DoOutcome.ok 200, DoOutcome.ok 200⟩,
         ⟨⟨200, Except.ok ⟨true, [⟨[]⟩]⟩⟩, DoOutcome.ok 200, DoOutcome.ok 200⟩⟩
        "example.com" "www" (some [203, 0, 113, 9])
        (some [32, 1, 13, 184, 0, 0, 0, 0, 0, 0, 0, 0, 0, 0, 0, 1])).1
      = Call.getDomains ::
          ((updateSingleRecord ⟨⟨500, Except.ok ⟨true, [⟨[]⟩]⟩⟩, DoOutcome.ok 200, DoOutcome.ok 200⟩
              "dom123" "www" (goIPString [203, 0, 113, 9]) "A").1
            ++ (updateSingleRecord ⟨⟨200, Except.ok ⟨true, [⟨[]⟩]⟩⟩, DoOutcome.ok 200, DoOutcome.ok 200⟩
              "dom123" "www" (goIPString [32, 1, 13, 184, 0, 0, 0, 0, 0, 0, 0, 0, 0, 0, 0, 1]) "AAAA").1) :=
  (C9_ipv6_after_ipv4_failure
    (some ⟨some ⟨"hover_session", "s"⟩, some ⟨"hoverauth", "a"⟩⟩)
    ⟨HttpResp.response 200 (Except.ok ⟨true, [⟨"dom123", "example.com"⟩]⟩),
     ⟨⟨500, Except.ok ⟨true, [⟨[]⟩]⟩⟩, DoOutcome.ok 200, DoOutcome.ok 200⟩,
     ⟨⟨200, Except.ok ⟨true, [⟨[]⟩]⟩⟩, DoOutcome.ok 200, DoOutcome.ok 200⟩⟩
    "example.com" "www" "dom123" [203, 0, 113, 9]
    [32, 1, 13, 184, 0, 0, 0, 0, 0, 0, 0, 0, 0, 0, 0, 1]
    [203, 0, 113, 9] [32, 1, 13, 184, 0, 0, 0, 0, 0, 0, 0, 0, 0, 0, 0, 1]
    "Received status code 500"
    (by decide) (by decide) (by decide) (by decide) (by decide)).1

/-! ## Claim C10 -/

/-- C10: Update returns nil exactly when the client is authenticated and
the domain-ID resolution succeeds; every per-family failure is only
logged, so a nil result says nothing about any record mutation having
succeeded. -/
theorem C10_update_error_iff (c : Option HoverClient) (env : UpdateEnv)
    (domainName hostName : String) (ip4 ip6 : Option GoIP) :
    (Update c env domainName hostName ip4 ip6).2 = Except.ok () ↔
      (IsAuthenticated c = true ∧
        ∃ domainID, getDomainID env.domains domainName = Except.ok domainID) := by
  by_cases hauth : IsAuthenticated c = true
  · cases hdom : getDomainID env.domains domainName with
    | error e => simp [Update, hauth, hdom]
    | ok did => simp [Update, hauth, hdom]
  · have hfalse : IsAuthenticated c = false := by
      cases hb : IsAuthenticated c
      · rfl
      · exact absurd hb hauth
    simp [Update, hfalse]

end HoverDdns
